import Mathlib

/-!
Verification of the Redux-style store of gio-redux-example.

The richest variant of the store lives in the generic file (part_000):
a `Store[S, A]` holding a state value, a reducer, an ordered middleware
list, a composed dispatch pipeline built once at construction, and a
subscriber list with index-based unsubscription, all guarded by a
read/write mutex.  An earlier variant in main.go has the same store
without the mutex and without subscriptions, and composes the middleware
in the opposite order.

Embedding notes.
The mutable fields touched during a dispatch are the state and the
subscriber slice; middleware and the terminal stage are modelled as
functions threading that mutable portion explicitly and emitting an
event trace (log lines, subscriber invocations).  Go `int` on the
64-bit gc targets this desktop app builds for is a 64-bit two's
complement integer whose arithmetic wraps; it is modelled as `Int`
with an explicit wrap at 2 ^ 64.  Subscriber callbacks are opaque
`func()` values in Go; they are identified here by natural-number ids
and an invocation is recorded as an event carrying the state the
callback would observe through `GetState` at that moment.
-/

namespace GioRedux

/-- Width of Go `int` on the gc 64-bit targets this app builds for. -/
def intWidth : Nat := 64

/-- Largest Go `int` value on a 64-bit target. -/
def intMax : Int := 2 ^ 63 - 1

/-- Smallest Go `int` value on a 64-bit target. -/
def intMin : Int := -(2 ^ 63)

/-- Two's-complement wraparound of Go `int` arithmetic (64-bit). -/
def wrap64 (x : Int) : Int := (x + 2 ^ 63) % 2 ^ 64 - 2 ^ 63

/-- Go source: `type State struct { Count int }`. -/
structure State where
  Count : Int
deriving DecidableEq

/-- Go source: `func (s State) Copy() State { return State{Count: s.Count} }`. -/
def State.Copy (s : State) : State := { Count := s.Count }

/-- Caller-side mutation of a `State` value it holds (Go `v.Count = c`
on a value the caller received). -/
def State.setCount (s : State) (c : Int) : State := { s with Count := c }

/-- The two action variants of the app (`IncrementAction`, `DecrementAction`). -/
inductive GoAction
  | inc
  | dec
deriving DecidableEq

/-- Go source: `func (a IncrementAction) Apply(s State) State`:
copy the state, increment its counter, return it.  The `++` on a Go
`int` wraps at the 64-bit boundary. -/
def IncrementAction.Apply (s : State) : State :=
  let state := s.Copy
  { state with Count := wrap64 (state.Count + 1) }

/-- Go source: `func (a DecrementAction) Apply(s State) State`. -/
def DecrementAction.Apply (s : State) : State :=
  let state := s.Copy
  { state with Count := wrap64 (state.Count - 1) }

/-- Dynamic dispatch of `Apply` over the action variants. -/
def GoAction.Apply : GoAction → State → State
  | .inc, s => IncrementAction.Apply s
  | .dec, s => DecrementAction.Apply s

/-- Go source: `func reduce(state State, action AppAction) State
{ return action.Apply(state) }`. -/
def reduce (state : State) (action : GoAction) : State := action.Apply state

/-- Observable events of a dispatch: a subscriber invocation (with the
state the callback observes via `GetState` at that instant), the two
log lines of the logging middleware, and generic probe markers used to
exhibit middleware nesting order. -/
inductive Event
  | notify (id : Nat) (seen : State)
  | logBefore (prev : State)
  | logAfter (post : State)
  | probeBefore (tag : Nat)
  | probeAfter (tag : Nat)
deriving DecidableEq

/-- The store fields that dispatch-time code can mutate through the
store pointer: the state and the subscriber slice. -/
structure MutState where
  state : State
  subscribers : List Nat
deriving DecidableEq

/-- Go type `Dispatch[A] = func(action A)`: a stage of the pipeline,
acting on the mutable store portion and emitting events. -/
def MDispatch := GoAction → MutState → MutState × List Event

/-- Go type `Middleware[S, A] = func(store, next Dispatch) Dispatch`;
the store-pointer argument is modelled by the threaded mutable portion
the returned dispatch receives. -/
def MMiddleware := MDispatch → MDispatch

/-- Go source, part_000 lines 100-115 (`Store.dispatchInternal`):
under the write lock replace the state by `reducer(state, action)`,
release it, snapshot the subscriber slice under the read lock, then
invoke every snapshotted subscriber in slice order; every invocation
happens after the state swap, so each callback observes the new state. -/
def dispatchInternal (reducer : State → GoAction → State) : MDispatch :=
  fun action m =>
    let newState := reducer m.state action
    ({ state := newState, subscribers := m.subscribers },
      m.subscribers.map fun id => Event.notify id newState)

/-- Go source, part_000 lines 117-123 (`Store.applyMiddleware`):
iterate `i = len-1` down to `0`, `dispatch = middleware[i](s, dispatch)`,
so the first-supplied middleware ends up outermost. -/
def applyMiddleware {D : Type} (middleware : List (D → D)) (dispatch : D) : D :=
  middleware.foldr (fun mw d => mw d) dispatch

/-- Go source, main.go lines 89-94 (the earlier store variant's
`Store.applyMiddleware`): iterate forward over the middleware slice,
`dispatch = middleware(s, dispatch)`, so the last-supplied middleware
ends up outermost. -/
def applyMiddlewareMainGo {D : Type} (middleware : List (D → D)) (dispatch : D) : D :=
  middleware.foldl (fun d mw => mw d) dispatch

/-- Go source, part_000 lines 75-82: the store record.  Subscriber
callbacks are identified by ids. -/
structure GoStore where
  state : State
  reducer : State → GoAction → State
  middleware : List MMiddleware
  dispatchFn : MDispatch
  subscribers : List Nat

/-- Go source, part_000 lines 84-98 (`NewStore`): record the fields,
then build the dispatch pipeline exactly once by wrapping the terminal
stage in the middleware. -/
def NewStore (reducer : State → GoAction → State) (initialState : State)
    (middleware : List MMiddleware) : GoStore :=
  { state := initialState
    reducer := reducer
    middleware := middleware
    subscribers := []
    dispatchFn := applyMiddleware middleware (dispatchInternal reducer) }

/-- Go source, part_000 lines 125-127 (`Store.Dispatch`): invoke the
stored pipeline on the action; the pipeline acts on the mutable portion
of the store and the result is written back. -/
def Store.Dispatch (s : GoStore) (action : GoAction) : GoStore × List Event :=
  let r := s.dispatchFn action { state := s.state, subscribers := s.subscribers }
  ({ s with state := r.1.state, subscribers := r.1.subscribers }, r.2)

/-- Go source, part_000 lines 129-133 (`Store.GetState`): return a copy
of the current state, taken under the read lock. -/
def Store.GetState (s : GoStore) : State := s.state.Copy

/-- Go source, part_000 lines 135-141 (`Store.Subscribe`): append the
callback to the subscriber slice and capture `index = len - 1`; the
captured index is what the returned unsubscribe closure uses. -/
def Store.Subscribe (s : GoStore) (fn : Nat) : GoStore × Nat :=
  ({ s with subscribers := s.subscribers ++ [fn] }, s.subscribers.length)

/-- Go source, part_000 lines 142-148 (the unsubscribe closure returned
by `Subscribe`): if the captured index is still in bounds, splice the
element at that index out of the current subscriber slice. -/
def Store.unsubscribe (s : GoStore) (index : Nat) : GoStore :=
  if index < s.subscribers.length then
    { s with subscribers := s.subscribers.take index ++ s.subscribers.drop (index + 1) }
  else s

/-- Go source, part_000 lines 64-72 (`LoggingMiddleware`): read the
previous state via `GetState`, log it, forward to `next`, read the new
state via `GetState`, log it. -/
def LoggingMiddleware : MMiddleware :=
  fun next action m =>
    let prevState := m.state.Copy
    let r := next action m
    let newState := r.1.state.Copy
    (r.1, Event.logBefore prevState :: (r.2 ++ [Event.logAfter newState]))

/-- A probe middleware recording only its own entry and exit, used to
exhibit the nesting order produced by composition. -/
def probeMiddleware (tag : Nat) : MMiddleware :=
  fun next action m =>
    let r := next action m
    (r.1, Event.probeBefore tag :: (r.2 ++ [Event.probeAfter tag]))

/-- A legal middleware value that never calls `next` (the "caller bug"
shape the spec discusses): the action is swallowed. -/
def swallowMiddleware : MMiddleware :=
  fun _next _action m => (m, [])

/-- A middleware is state-preserving when its wrapped dispatch leaves
the resulting mutable store portion exactly as the inner dispatch
produced it (it may only add events). -/
def StatePreserving (mw : MMiddleware) : Prop :=
  ∀ d action m, (mw d action m).1 = (d action m).1

/-- Sequentially dispatch a list of actions, accumulating the traces. -/
def dispatchSeq : GoStore → List GoAction → GoStore × List Event
  | s, [] => (s, [])
  | s, a :: rest =>
    let r1 := Store.Dispatch s a
    let r2 := dispatchSeq r1.1 rest
    (r2.1, r1.2 ++ r2.2)

/-- Number of Increments minus number of Decrements in an action list. -/
def net (acts : List GoAction) : Int :=
  (acts.count GoAction.inc : Int) - (acts.count GoAction.dec : Int)

/-- Signed contribution of a single action to the counter. -/
def delta : GoAction → Int
  | .inc => 1
  | .dec => -1

/-- Function type of the reducer, as stored in the Go store record. -/
def ReducerFn := State → GoAction → State

/-- A dispatch stage when the stored reducer may be Go `nil`: calling a
nil function value panics, modelled as `none`. -/
def MDispatchN := GoAction → MutState → Option (MutState × List Event)

/-- Go source, part_000 lines 100-115, with the stored reducer taken as
a possibly-nil function value: the closure body calls `s.reducer`, which
panics when the reducer is nil. -/
def dispatchInternalN (reducer : Option ReducerFn) : MDispatchN :=
  fun action m =>
    match reducer with
    | some f =>
      let newState := f m.state action
      some ({ state := newState, subscribers := m.subscribers },
        m.subscribers.map fun id => Event.notify id newState)
    | none => none

/-- The store record with a possibly-nil reducer field. -/
structure GoStoreN where
  state : State
  reducer : Option ReducerFn
  middleware : List (MDispatchN → MDispatchN)
  dispatchFn : MDispatchN
  subscribers : List Nat

/-- Go source, part_000 lines 84-98 (`NewStore`) with a possibly-nil
reducer: the body records the fields and builds the pipeline without
ever checking or invoking the reducer, so construction always returns
a store. -/
def NewStoreN (reducer : Option ReducerFn) (initialState : State)
    (middleware : List (MDispatchN → MDispatchN)) : GoStoreN :=
  { state := initialState
    reducer := reducer
    middleware := middleware
    subscribers := []
    dispatchFn := applyMiddleware middleware (dispatchInternalN reducer) }

/-- Dispatch on the possibly-nil-reducer store; `none` is the panic. -/
def Store.DispatchN (s : GoStoreN) (action : GoAction) : Option (GoStoreN × List Event) :=
  match s.dispatchFn action { state := s.state, subscribers := s.subscribers } with
  | some r => some ({ s with state := r.1.state, subscribers := r.1.subscribers }, r.2)
  | none => none

/-! Arithmetic facts about the 64-bit wrap. -/

theorem wrap64_eq_self {x : Int} (h1 : intMin ≤ x) (h2 : x ≤ intMax) : wrap64 x = x := by
  have e1 : (2 : Int) ^ 63 = 9223372036854775808 := by norm_num
  have e2 : (2 : Int) ^ 64 = 18446744073709551616 := by norm_num
  unfold wrap64
  unfold intMin at h1
  unfold intMax at h2
  rw [e1] at h1 ⊢
  rw [e2]
  rw [e1] at h2
  omega

theorem wrap64_add_left (a b : Int) : wrap64 (wrap64 a + b) = wrap64 (a + b) := by
  have e1 : (2 : Int) ^ 63 = 9223372036854775808 := by norm_num
  have e2 : (2 : Int) ^ 64 = 18446744073709551616 := by norm_num
  unfold wrap64
  rw [e1, e2]
  omega

theorem wrap64_idem (x : Int) : wrap64 (wrap64 x) = wrap64 x := by
  have h := wrap64_add_left x 0
  simpa using h

/-! Behaviour of the composed pipeline for state-preserving middleware. -/

theorem applyMiddleware_fst : ∀ (mws : List MMiddleware),
    (∀ mw ∈ mws, StatePreserving mw) →
    ∀ (d : MDispatch) (action : GoAction) (m : MutState),
      (applyMiddleware mws d action m).1 = (d action m).1
  | [], _, _, _, _ => rfl
  | mw :: rest, hmw, d, action, m => by
    have h1 : StatePreserving mw := hmw mw (List.mem_cons_self mw rest)
    have h2 : ∀ x ∈ rest, StatePreserving x := fun x hx => hmw x (List.mem_cons_of_mem mw hx)
    have hstep : (applyMiddleware (mw :: rest) d action m).1
        = (applyMiddleware rest d action m).1 := h1 (applyMiddleware rest d) action m
    rw [hstep, applyMiddleware_fst rest h2 d action m]

theorem Dispatch_state (mws : List MMiddleware) (hmw : ∀ mw ∈ mws, StatePreserving mw)
    (st : GoStore) (a : GoAction)
    (hdf : st.dispatchFn = applyMiddleware mws (dispatchInternal reduce)) :
    (Store.Dispatch st a).1.state = reduce st.state a ∧
    (Store.Dispatch st a).1.subscribers = st.subscribers ∧
    (Store.Dispatch st a).1.dispatchFn = st.dispatchFn := by
  have h := applyMiddleware_fst mws hmw (dispatchInternal reduce) a ⟨st.state, st.subscribers⟩
  refine ⟨?_, ?_, rfl⟩
  · show (st.dispatchFn a ⟨st.state, st.subscribers⟩).1.state = reduce st.state a
    rw [hdf, h]
    rfl
  · show (st.dispatchFn a ⟨st.state, st.subscribers⟩).1.subscribers = st.subscribers
    rw [hdf, h]
    rfl

theorem reduce_count (s : State) (a : GoAction) :
    (reduce s a).Count = wrap64 (s.Count + delta a) := by
  cases a <;> rfl

theorem net_cons (a : GoAction) (rest : List GoAction) :
    net (a :: rest) = delta a + net rest := by
  cases a <;> simp [net, delta, List.count_cons] <;> ring

theorem dispatchSeq_count (mws : List MMiddleware) (hmw : ∀ mw ∈ mws, StatePreserving mw)
    (acts : List GoAction) :
    ∀ st : GoStore,
      st.dispatchFn = applyMiddleware mws (dispatchInternal reduce) →
      wrap64 st.state.Count = st.state.Count →
      (dispatchSeq st acts).1.state.Count = wrap64 (st.state.Count + net acts) := by
  induction acts with
  | nil =>
    intro st _ hc
    simpa [dispatchSeq, net] using hc.symm
  | cons a rest ih =>
    intro st hdf hc
    obtain ⟨h1, _, h3⟩ := Dispatch_state mws hmw st a hdf
    have hdf1 : (Store.Dispatch st a).1.dispatchFn
        = applyMiddleware mws (dispatchInternal reduce) := by rw [h3, hdf]
    have hstep : (Store.Dispatch st a).1.state.Count = wrap64 (st.state.Count + delta a) := by
      rw [h1, reduce_count]
    have hc1 : wrap64 (Store.Dispatch st a).1.state.Count
        = (Store.Dispatch st a).1.state.Count := by
      rw [hstep, wrap64_idem]
    calc (dispatchSeq st (a :: rest)).1.state.Count
        = (dispatchSeq (Store.Dispatch st a).1 rest).1.state.Count := rfl
      _ = wrap64 ((Store.Dispatch st a).1.state.Count + net rest) := ih _ hdf1 hc1
      _ = wrap64 (wrap64 (st.state.Count + delta a) + net rest) := by rw [hstep]
      _ = wrap64 (st.state.Count + delta a + net rest) := wrap64_add_left _ _
      _ = wrap64 (st.state.Count + net (a :: rest)) := by rw [net_cons]; ring_nf

theorem LoggingMiddleware_statePreserving : StatePreserving LoggingMiddleware :=
  fun _ _ _ => rfl

/-- C1: the claim says the unsubscribe closure returned by `Subscribe`
removes exactly the callback registered by that call and that a second
invocation is a safe no-op under every sequence of intervening
operations.  Evaluating the source: after `Subscribe` of callbacks 1
and 2 (captured indices 0 and 1), the first invocation of callback 1's
unsubscribe closure leaves `[2]`, and its second invocation finds its
captured index 0 still in bounds and removes callback 2 — a different
subscriber — leaving `[]`. -/
theorem unsubscribe_second_call_removes_other :
    (let s0 := NewStore reduce ⟨0⟩ []
     let r1 := Store.Subscribe s0 1
     let r2 := Store.Subscribe r1.1 2
     let s3 := Store.unsubscribe r2.1 r1.2
     let s4 := Store.unsubscribe s3 r1.2
     s3.subscribers = [2] ∧ s4.subscribers = []) := by
  decide

/-- C2: the claim says the pipeline invoked by `Dispatch` is
`m0 (m1 (... terminal))` with the first-supplied middleware outermost,
for both cited `applyMiddleware` implementations.  Evaluating the
main.go variant's forward loop on probes 0 and 1: probe 1 (the last
supplied) is outermost, while the nesting the claim requires — which
the part_000 variant's reverse loop does produce — has probe 0
outermost. -/
theorem mainGo_applyMiddleware_order :
    (let terminal := dispatchInternal reduce
     let pipeMainGo := applyMiddlewareMainGo [probeMiddleware 0, probeMiddleware 1] terminal
     let pipeClaimed := probeMiddleware 0 (probeMiddleware 1 terminal)
     let pipePart000 := applyMiddleware [probeMiddleware 0, probeMiddleware 1] terminal
     let m : MutState := { state := ⟨0⟩, subscribers := [] }
     (pipeMainGo GoAction.inc m).2
        = [Event.probeBefore 1, Event.probeBefore 0, Event.probeAfter 0, Event.probeAfter 1] ∧
     (pipeClaimed GoAction.inc m).2
        = [Event.probeBefore 0, Event.probeBefore 1, Event.probeAfter 1, Event.probeAfter 0] ∧
     (pipePart000 GoAction.inc m).2 = (pipeClaimed GoAction.inc m).2) := by
  decide

/-- C3: the claim includes that a callback whose unsubscribe closure
has been invoked is never invoked by a later dispatch.  Evaluating the
source on Subscribe 1, Subscribe 2, unsubscribe 1, Subscribe 3,
unsubscribe 2: the last unsubscribe uses callback 2's captured index 1,
which now holds callback 3, so callback 3 is removed and callback 2
stays; the next dispatch invokes callback 2 (with the updated state)
even though its unsubscribe closure was invoked. -/
theorem unsubscribed_callback_invoked_again :
    (let s0 := NewStore reduce ⟨0⟩ []
     let r1 := Store.Subscribe s0 1
     let r2 := Store.Subscribe r1.1 2
     let s3 := Store.unsubscribe r2.1 r1.2
     let r4 := Store.Subscribe s3 3
     let s5 := Store.unsubscribe r4.1 r2.2
     s5.subscribers = [2] ∧ (Store.Dispatch s5 GoAction.inc).2 = [Event.notify 2 ⟨1⟩]) := by
  decide

/-- C4 (counterexample): the claim as stated fails on the code in two
ways.  With no middleware but the initial count at the largest Go int,
one Increment wraps to the smallest int instead of adding 1; and with
a (legal) middleware value that never calls `next`, the Increment is
swallowed and the final count stays 0 instead of 1. -/
theorem final_count_claim_fails :
    (Store.GetState (dispatchSeq (NewStore reduce ⟨intMax⟩ []) [GoAction.inc]).1).Count
        ≠ intMax + net [GoAction.inc] ∧
    (Store.GetState (dispatchSeq (NewStore reduce ⟨0⟩ [swallowMiddleware]) [GoAction.inc]).1).Count
        ≠ 0 + net [GoAction.inc] := by
  constructor <;> decide

/-- C4 (amended): for every store built with state-preserving
middleware (middleware whose wrapped dispatch returns the mutable store
portion unchanged from the inner stage, as the logging middleware does;
the empty list included), every in-range initial state, and every
finite action sequence whose arithmetic result stays within the 64-bit
int range, the final `GetState` count equals the initial count plus the
number of Increments minus the number of Decrements. -/
theorem final_count_eq_net (mws : List MMiddleware)
    (hmw : ∀ mw ∈ mws, StatePreserving mw) (s0 : State)
    (h0 : wrap64 s0.Count = s0.Count) (acts : List GoAction)
    (hr : wrap64 (s0.Count + net acts) = s0.Count + net acts) :
    (Store.GetState (dispatchSeq (NewStore reduce s0 mws) acts).1).Count
      = s0.Count + net acts := by
  have h := dispatchSeq_count mws hmw acts (NewStore reduce s0 mws) rfl h0
  calc (Store.GetState (dispatchSeq (NewStore reduce s0 mws) acts).1).Count
      = (dispatchSeq (NewStore reduce s0 mws) acts).1.state.Count := rfl
    _ = wrap64 ((NewStore reduce s0 mws).state.Count + net acts) := h
    _ = s0.Count + net acts := hr

/-- C4 (witness): the spec scenario — a store with the logging
middleware, initial count 0, dispatching Increment, Increment,
Decrement — ends with `GetState` count 1. -/
theorem final_count_eq_net_witness :
    (Store.GetState (dispatchSeq (NewStore reduce ⟨0⟩ [LoggingMiddleware])
        [GoAction.inc, GoAction.inc, GoAction.dec]).1).Count
      = (0 : Int) + net [GoAction.inc, GoAction.inc, GoAction.dec] ∧
    (0 : Int) + net [GoAction.inc, GoAction.inc, GoAction.dec] = 1 :=
  ⟨final_count_eq_net [LoggingMiddleware]
      (by
        intro mw hmw
        have h : mw = LoggingMiddleware := by simpa using hmw
        rw [h]
        exact LoggingMiddleware_statePreserving)
      ⟨0⟩ (by decide) [GoAction.inc, GoAction.inc, GoAction.dec] (by decide),
    by decide⟩

/-- C5: `GetState` returns the copy of the held state: its value equals
the held state, the copy is a fresh record rebuilt from the counter
field alone (the state has no reference-typed field, so the copy shares
nothing mutable with the store), a caller-side mutation of the returned
value is a new value carrying the mutated field, and two `GetState`
calls with no intervening dispatch both equal the held state and hence
each other. -/
theorem GetState_returns_independent_copy (st : GoStore) (c : Int) :
    Store.GetState st = st.state ∧
    State.Copy st.state = State.mk st.state.Count ∧
    (State.setCount (Store.GetState st) c).Count = c ∧
    Store.GetState st = st.state.Copy :=
  ⟨rfl, rfl, rfl, rfl⟩

/-- C6: the pipeline stored at construction is exactly the middleware
composition around the internal terminal stage; `Dispatch`, `Subscribe`
and the unsubscribe closure leave that stored pipeline untouched
(`GetState` returns only a state value and writes nothing), and every
`Dispatch` call runs precisely the stored pipeline on the mutable store
portion. -/
theorem dispatch_pipeline_built_once (r : State → GoAction → State) (s0 : State)
    (mws : List MMiddleware) (st : GoStore) (a : GoAction) (fn index : Nat) :
    (NewStore r s0 mws).dispatchFn = applyMiddleware mws (dispatchInternal r) ∧
    (Store.Dispatch st a).1.dispatchFn = st.dispatchFn ∧
    (Store.Subscribe st fn).1.dispatchFn = st.dispatchFn ∧
    (Store.unsubscribe st index).dispatchFn = st.dispatchFn ∧
    (Store.Dispatch st a).2
      = (st.dispatchFn a { state := st.state, subscribers := st.subscribers }).2 ∧
    (Store.Dispatch st a).1.state
      = (st.dispatchFn a { state := st.state, subscribers := st.subscribers }).1.state := by
  refine ⟨rfl, rfl, rfl, ?_, rfl, rfl⟩
  unfold Store.unsubscribe
  split <;> rfl

/-- C8: both action applications are total functions whose result
counter is the 64-bit wrap of the old counter plus or minus one; within
the int range that is exactly plus or minus one, and at the extremes
the result wraps: incrementing the largest int yields the smallest and
decrementing the smallest yields the largest. -/
theorem apply_total_and_wraps (s : State) :
    IncrementAction.Apply s = ⟨wrap64 (s.Count + 1)⟩ ∧
    DecrementAction.Apply s = ⟨wrap64 (s.Count - 1)⟩ ∧
    (intMin ≤ s.Count + 1 → s.Count + 1 ≤ intMax →
      (IncrementAction.Apply s).Count = s.Count + 1) ∧
    (intMin ≤ s.Count - 1 → s.Count - 1 ≤ intMax →
      (DecrementAction.Apply s).Count = s.Count - 1) ∧
    (IncrementAction.Apply ⟨intMax⟩).Count = intMin ∧
    (DecrementAction.Apply ⟨intMin⟩).Count = intMax :=
  ⟨rfl, rfl,
    fun h1 h2 => wrap64_eq_self h1 h2,
    fun h1 h2 => wrap64_eq_self h1 h2,
    by decide, by decide⟩

/-- C8 (witness): at count 5 the two applications give 6 and 4. -/
theorem apply_total_and_wraps_witness :
    (IncrementAction.Apply ⟨5⟩).Count = 5 + 1 ∧
    (DecrementAction.Apply ⟨5⟩).Count = 5 - 1 :=
  ⟨(apply_total_and_wraps ⟨5⟩).2.2.1 (by decide) (by decide),
    (apply_total_and_wraps ⟨5⟩).2.2.2.1 (by decide) (by decide)⟩

/-- C9: the claim says a nil reducer makes construction fail fast.
Evaluating the source: `NewStore` records a nil reducer and builds the
pipeline without checking or calling it, so construction returns a
store with the initial state in place; the panic (modelled `none`)
happens only when `Dispatch` first runs the pipeline, while the same
store with a real reducer dispatches successfully. -/
theorem nil_reducer_panics_only_at_dispatch :
    (NewStoreN none ⟨0⟩ []).state = ⟨0⟩ ∧
    (NewStoreN none ⟨0⟩ []).reducer = none ∧
    Store.DispatchN (NewStoreN none ⟨0⟩ []) GoAction.inc = none ∧
    (Store.DispatchN (NewStoreN (some reduce) ⟨0⟩ []) GoAction.inc).isSome = true := by
  refine ⟨rfl, rfl, rfl, ?_⟩
  decide

/-- C10: `Subscribe` changes only the subscriber list (it appends the
new callback) and the unsubscribe closure changes only the subscriber
list; the held state, the reducer, the middleware list and the stored
dispatch pipeline are all unchanged by either call. -/
theorem subscribe_touches_only_subscribers (st : GoStore) (fn index : Nat) :
    (Store.Subscribe st fn).1.state = st.state ∧
    (Store.Subscribe st fn).1.reducer = st.reducer ∧
    (Store.Subscribe st fn).1.middleware = st.middleware ∧
    (Store.Subscribe st fn).1.dispatchFn = st.dispatchFn ∧
    (Store.Subscribe st fn).1.subscribers = st.subscribers ++ [fn] ∧
    (Store.unsubscribe st index).state = st.state ∧
    (Store.unsubscribe st index).reducer = st.reducer ∧
    (Store.unsubscribe st index).middleware = st.middleware ∧
    (Store.unsubscribe st index).dispatchFn = st.dispatchFn := by
  refine ⟨rfl, rfl, rfl, rfl, rfl, ?_, ?_, ?_, ?_⟩ <;>
  · unfold Store.unsubscribe
    split <;> rfl

end GioRedux
